import Mathlib

/-!
# GLRenderer: `src/duckylib/renderer.h`

A shallow embedding of the renderer wrapper.  Every wrapper of the header is a
function on an explicit `World`:

* `World.gl`  : the part of the OpenGL context state the wrappers touch,
* `World.log` : every GL command issued so far, with its arguments, in order,
* `World.out` : what has been written to standard output.

The GL commands themselves are not part of the repository.  Their effect on
the tracked context state follows the OpenGL reference pages (core profile);
the constants are the values of the Khronos registry header that
`glad/glad.h` reproduces.  What the OpenGL implementation decides on its own
(whether a source compiles, whether a program links, whether one more object
can be created) is a `Driver`, a parameter of the commands that depend on it.
-/

namespace GLRenderer

/-! ## Constants of `glad/glad.h`

The header is not in the source tree.  It is generated from the OpenGL
registry, whose values are used here. -/

/-- Modelled from the spec: `GL_NO_ERROR` of the missing `glad/glad.h`,
the value `glGetError` hands back when no error is recorded, with its value in the OpenGL registry. -/
def GL_NO_ERROR : Nat := 0

/-- Modelled from the spec: `GL_INVALID_ENUM` of the missing `glad/glad.h`,
an error code of `glGetError`, with its value in the OpenGL registry. -/
def GL_INVALID_ENUM : Nat := 0x0500

/-- Modelled from the spec: `GL_INVALID_VALUE` of the missing `glad/glad.h`,
an error code of `glGetError`, with its value in the OpenGL registry. -/
def GL_INVALID_VALUE : Nat := 0x0501

/-- Modelled from the spec: `GL_INVALID_OPERATION` of the missing `glad/glad.h`,
an error code of `glGetError`, with its value in the OpenGL registry. -/
def GL_INVALID_OPERATION : Nat := 0x0502

/-- Modelled from the spec: `GL_STACK_OVERFLOW` of the missing `glad/glad.h`,
an error code of `glGetError`, with its value in the OpenGL registry. -/
def GL_STACK_OVERFLOW : Nat := 0x0503

/-- Modelled from the spec: `GL_STACK_UNDERFLOW` of the missing `glad/glad.h`,
an error code of `glGetError`, with its value in the OpenGL registry. -/
def GL_STACK_UNDERFLOW : Nat := 0x0504

/-- Modelled from the spec: `GL_OUT_OF_MEMORY` of the missing `glad/glad.h`,
an error code of `glGetError`, with its value in the OpenGL registry. -/
def GL_OUT_OF_MEMORY : Nat := 0x0505

/-- Modelled from the spec: `GL_INVALID_FRAMEBUFFER_OPERATION` of the missing `glad/glad.h`,
an error code of `glGetError`, with its value in the OpenGL registry. -/
def GL_INVALID_FRAMEBUFFER_OPERATION : Nat := 0x0506


/-- Modelled from the spec: `GL_FALSE` of the missing `glad/glad.h`,
the boolean false, with its value in the OpenGL registry. -/
def GL_FALSE : Nat := 0

/-- Modelled from the spec: `GL_ZERO` of the missing `glad/glad.h`,
a blend factor, with its value in the OpenGL registry. -/
def GL_ZERO : Nat := 0

/-- Modelled from the spec: `GL_ONE` of the missing `glad/glad.h`,
a blend factor, with its value in the OpenGL registry. -/
def GL_ONE : Nat := 1

/-- Modelled from the spec: `GL_TRIANGLES` of the missing `glad/glad.h`,
a primitive mode, with its value in the OpenGL registry. -/
def GL_TRIANGLES : Nat := 0x0004

/-- Modelled from the spec: `GL_DEPTH_BUFFER_BIT` of the missing `glad/glad.h`,
a mask bit of `glClear`, with its value in the OpenGL registry. -/
def GL_DEPTH_BUFFER_BIT : Nat := 0x00000100

/-- Modelled from the spec: `GL_COLOR_BUFFER_BIT` of the missing `glad/glad.h`,
a mask bit of `glClear`, with its value in the OpenGL registry. -/
def GL_COLOR_BUFFER_BIT : Nat := 0x00004000

/-- Modelled from the spec: `GL_LESS` of the missing `glad/glad.h`,
a depth comparison function, with its value in the OpenGL registry. -/
def GL_LESS : Nat := 0x0201

/-- Modelled from the spec: `GL_SRC_ALPHA` of the missing `glad/glad.h`,
a blend factor, with its value in the OpenGL registry. -/
def GL_SRC_ALPHA : Nat := 0x0302

/-- Modelled from the spec: `GL_ONE_MINUS_SRC_ALPHA` of the missing `glad/glad.h`,
a blend factor, with its value in the OpenGL registry. -/
def GL_ONE_MINUS_SRC_ALPHA : Nat := 0x0303

/-- Modelled from the spec: `GL_FRONT` of the missing `glad/glad.h`,
a face selection, with its value in the OpenGL registry. -/
def GL_FRONT : Nat := 0x0404

/-- Modelled from the spec: `GL_BACK` of the missing `glad/glad.h`,
a face selection, with its value in the OpenGL registry. -/
def GL_BACK : Nat := 0x0405

/-- Modelled from the spec: `GL_CW` of the missing `glad/glad.h`,
a winding order, with its value in the OpenGL registry. -/
def GL_CW : Nat := 0x0900

/-- Modelled from the spec: `GL_CCW` of the missing `glad/glad.h`,
a winding order, with its value in the OpenGL registry. -/
def GL_CCW : Nat := 0x0901

/-- Modelled from the spec: `GL_LINE_SMOOTH` of the missing `glad/glad.h`,
the capability of line antialiasing, with its value in the OpenGL registry. -/
def GL_LINE_SMOOTH : Nat := 0x0B20

/-- Modelled from the spec: `GL_CULL_FACE` of the missing `glad/glad.h`,
the capability of face culling, with its value in the OpenGL registry. -/
def GL_CULL_FACE : Nat := 0x0B44

/-- Modelled from the spec: `GL_DEPTH_TEST` of the missing `glad/glad.h`,
the capability of the depth test, with its value in the OpenGL registry. -/
def GL_DEPTH_TEST : Nat := 0x0B71

/-- Modelled from the spec: `GL_BLEND` of the missing `glad/glad.h`,
the capability of alpha blending, with its value in the OpenGL registry. -/
def GL_BLEND : Nat := 0x0BE2

/-- Modelled from the spec: `GL_ARRAY_BUFFER` of the missing `glad/glad.h`,
the buffer target of vertex data, with its value in the OpenGL registry. -/
def GL_ARRAY_BUFFER : Nat := 0x8892

/-- Modelled from the spec: `GL_STATIC_DRAW` of the missing `glad/glad.h`,
the usage hint of a static buffer, with its value in the OpenGL registry. -/
def GL_STATIC_DRAW : Nat := 0x88E4

/-- Modelled from the spec: `GL_FRAGMENT_SHADER` of the missing `glad/glad.h`,
a shader type, with its value in the OpenGL registry. -/
def GL_FRAGMENT_SHADER : Nat := 0x8B30

/-- Modelled from the spec: `GL_VERTEX_SHADER` of the missing `glad/glad.h`,
a shader type, with its value in the OpenGL registry. -/
def GL_VERTEX_SHADER : Nat := 0x8B31


/-- The C expression `sizeof(float)`. -/
def sizeof_float : Nat := 4

/-- The bit pattern of the `float` literal `1.0f`. -/
def float_one : Nat := 0x3F800000

/-! ## The renderer record -/

/-- The struct `DL_Renderer`: four `unsigned int` fields. -/
structure DL_Renderer where
  shader_program : Nat
  vao : Nat
  vbo : Nat
  vertex_count : Nat
  deriving DecidableEq, Repr

/-- Modelled from the spec: the struct `Vec3` of the missing `camera.h`, the
background colour, with the three `float` fields `dl_renderer_set_background`
reads, as bit patterns. -/
structure Vec3 where
  x : Nat
  y : Nat
  z : Nat
  deriving DecidableEq, Repr

/-! ## The tracked OpenGL context state -/

/-- A shader object: its name, type and source, whether its last compilation
succeeded, and whether it is flagged for deletion. -/
structure ShaderObj where
  name : Nat
  type : Nat
  source : Option String
  compiled : Bool
  deleteFlag : Bool
  deriving DecidableEq, Repr

/-- A program object: its name, the names of its attached shader objects,
whether its last link succeeded, and whether it is flagged for deletion. -/
structure ProgramObj where
  name : Nat
  attached : List Nat
  linked : Bool
  deleteFlag : Bool
  deriving DecidableEq, Repr

/-- A buffer object: its name and its data store. -/
structure BufferObj where
  name : Nat
  size : Nat
  data : List Nat
  usage : Nat
  deriving DecidableEq, Repr

/-- The part of the context state that the wrappers read or write. -/
structure GLState where
  errors : List Nat
  blend : Bool
  depthTest : Bool
  cullFace : Bool
  lineSmooth : Bool
  blendSrc : Nat
  blendDst : Nat
  depthFunc : Nat
  cullFaceMode : Nat
  frontFace : Nat
  vertexArrayBinding : Nat
  arrayBufferBinding : Nat
  currentProgram : Nat
  vertexArrays : List Nat
  buffers : List BufferObj
  shaders : List ShaderObj
  programs : List ProgramObj
  deriving DecidableEq, Repr

/-- The OpenGL implementation behind the context, as far as the outcome of a
command is its own decision: `compiles type source` is whether its GLSL
compiler accepts `source` as a shader of `type`, `links shaders` whether its
linker accepts the compiled shaders (type and source each) as one program, and
`createOk s` whether it can create one more shader or program object in the
context state `s`. -/
structure Driver where
  compiles : Nat → String → Bool
  links : List (Nat × String) → Bool
  createOk : GLState → Bool

/-- One GL command with the arguments it was given and, for a command that
hands back a value, the value it handed back (`result`). -/
inductive GLCall where
  | getError (result : Nat)
  | blendFunc (sfactor dfactor : Nat)
  | enable (cap : Nat)
  | depthFunc (func : Nat)
  | cullFace (mode : Nat)
  | frontFace (mode : Nat)
  | clearColor (r g b a : Nat)
  | clear (mask : Nat)
  | createShader (type : Nat) (result : Nat)
  | shaderSource (shader : Nat) (count : Nat) (src : String)
  | compileShader (shader : Nat)
  | createProgram (result : Nat)
  | attachShader (program shader : Nat)
  | linkProgram (program : Nat)
  | deleteShader (shader : Nat)
  | bindVertexArray (array : Nat)
  | bindBuffer (target buffer : Nat)
  | genVertexArrays (n : Nat) (result : Nat)
  | genBuffers (n : Nat) (result : Nat)
  | bufferData (target size : Nat) (data : List Nat) (usage : Nat)
  | vertexAttribPointer (index size type normalized stride offset : Nat)
  | enableVertexAttribArray (index : Nat)
  | useProgram (program : Nat)
  | getUniformLocation (program : Nat) (name : String) (result : Int)
  | uniformMatrix4fv (location : Int) (count transpose : Nat) (value : List Nat)
  | drawArrays (mode first count : Nat)
  | deleteVertexArrays (n : Nat) (array : Nat)
  | deleteBuffers (n : Nat) (buffer : Nat)
  | deleteProgram (program : Nat)
  deriving DecidableEq, Repr

/-- The context state, the log of GL commands issued, and standard output.
An entry `none` of `out` is a `printf` whose `%s` argument was an
uninitialised pointer: the behaviour of the program is undefined from that
call on, and `out` ends there. -/
structure World where
  gl : GLState
  log : List GLCall
  out : List (Option String)
  deriving DecidableEq, Repr

/-- The value a wrapper hands back, the renderer it was given and the world,
all after the call.  `ret = none` is an indeterminate `int`: control reached
the closing brace of the function without a `return`. -/
structure Outcome where
  ret : Option Int
  renderer : DL_Renderer
  world : World
  deriving DecidableEq, Repr

/-- Issue the command `c`: it is appended to the log and the context state
becomes `s`. -/
def World.run (w : World) (c : GLCall) (s : GLState) : World :=
  { w with gl := s, log := w.log ++ [c] }

/-- Conversion of a 32-bit unsigned value to `int`. -/
def toInt (n : Nat) : Int :=
  if n % 2 ^ 32 < 2 ^ 31 then ((n % 2 ^ 32 : Nat) : Int) else ((n % 2 ^ 32 : Nat) : Int) - 2 ^ 32

/-! ## Error polling -/

/-- The command `glGetError`: hands back the oldest recorded error and clears
it, or `GL_NO_ERROR` when none is recorded. -/
def glGetError (w : World) : Nat × World :=
  match w.gl.errors with
  | [] => (GL_NO_ERROR, w.run (.getError GL_NO_ERROR) w.gl)
  | e :: rest => (e, w.run (.getError e) { w.gl with errors := rest })

/-- The `switch` of `dl_renderer_opengl_error`: the string assigned to the
local `error`.  There is no `default:` label, so for any other code `error`
keeps its indeterminate initial value (`none`). -/
def errorName (errorCode : Nat) : Option String :=
  if errorCode = GL_INVALID_ENUM then some "INVALID_ENUM"
  else if errorCode = GL_INVALID_VALUE then some "INVALID_VALUE"
  else if errorCode = GL_INVALID_OPERATION then some "INVALID_OPERATION"
  else if errorCode = GL_STACK_OVERFLOW then some "STACK_OVERFLOW"
  else if errorCode = GL_STACK_UNDERFLOW then some "STACK_UNDERFLOW"
  else if errorCode = GL_OUT_OF_MEMORY then some "OUT_OF_MEMORY"
  else if errorCode = GL_INVALID_FRAMEBUFFER_OPERATION then some "INVALID_FRAMEBUFFER_OPERATION"
  else none

/-- The text of `printf("%s | %s (%d)\n", error, file, line)`. -/
def formatLine (error : Option String) (file : String) (line : Int) : Option String :=
  match error with
  | some e => some (e ++ " | " ++ file ++ " (" ++ toString line ++ ")\n")
  | none => none

/-- The call `printf("%s | %s (%d)\n", error, file, line)`. -/
def printf (error : Option String) (file : String) (line : Int) (w : World) : World :=
  { w with out := w.out ++ [formatLine error file line] }

/-- The `while` loop of `dl_renderer_opengl_error`; yields the value of
`errorCode` on leaving the loop.  When `printf` is handed the uninitialised
`error`, the behaviour of the C program is undefined: the loop is followed no
further and yields no value (`none`). -/
def opengl_error_loop (file : String) (line : Int) (w : World) : Option Nat × World :=
  let r := glGetError w
  if r.1 ≠ GL_NO_ERROR then
    let error := errorName r.1
    let w1 := printf error file line r.2
    if error = none then
      (none, w1)
    else
      opengl_error_loop file line w1
  else
    (some r.1, r.2)
termination_by w.gl.errors.length
decreasing_by
  simp only [printf]
  revert r
  unfold glGetError
  cases w.gl.errors with
  | nil => intro r hr; simp [GL_NO_ERROR] at hr
  | cons e rest => intro r _; simp [World.run]

/-- The function `dl_renderer_opengl_error`: `return errorCode;` after the
loop, converted to `int`. -/
def dl_renderer_opengl_error (file : String) (line : Int) (w : World) : Option Int × World :=
  let r := opengl_error_loop file line w
  (r.1.map toInt, r.2)

/-! ## Render-state commands -/

/-- The command `glBlendFunc`. -/
def glBlendFunc (sfactor dfactor : Nat) (w : World) : World :=
  w.run (.blendFunc sfactor dfactor) { w.gl with blendSrc := sfactor, blendDst := dfactor }

/-- The command `glEnable`, for the four capabilities the context state
tracks; any other capability lies outside the tracked state. -/
def glEnable (cap : Nat) (w : World) : World :=
  w.run (.enable cap)
    (if cap = GL_BLEND then { w.gl with blend := true }
     else if cap = GL_DEPTH_TEST then { w.gl with depthTest := true }
     else if cap = GL_CULL_FACE then { w.gl with cullFace := true }
     else if cap = GL_LINE_SMOOTH then { w.gl with lineSmooth := true }
     else w.gl)

/-- The command `glDepthFunc`. -/
def glDepthFunc (func : Nat) (w : World) : World :=
  w.run (.depthFunc func) { w.gl with depthFunc := func }

/-- The command `glCullFace`. -/
def glCullFace (mode : Nat) (w : World) : World :=
  w.run (.cullFace mode) { w.gl with cullFaceMode := mode }

/-- The command `glFrontFace`. -/
def glFrontFace (mode : Nat) (w : World) : World :=
  w.run (.frontFace mode) { w.gl with frontFace := mode }

/-- The command `glClearColor`; the clear colour is not tracked. -/
def glClearColor (r g b a : Nat) (w : World) : World :=
  w.run (.clearColor r g b a) w.gl

/-- The command `glClear`; framebuffer contents are not tracked. -/
def glClear (mask : Nat) (w : World) : World :=
  w.run (.clear mask) w.gl

/-- The query `glIsEnabled` on the tracked capabilities. -/
def glIsEnabled (s : GLState) (cap : Nat) : Bool :=
  if cap = GL_BLEND then s.blend
  else if cap = GL_DEPTH_TEST then s.depthTest
  else if cap = GL_CULL_FACE then s.cullFace
  else if cap = GL_LINE_SMOOTH then s.lineSmooth
  else false

/-! ## Object names -/

/-- An unused, non-zero object name: one more than the largest name in use. -/
def freshName (used : List Nat) : Nat :=
  used.foldl max 0 + 1

/-- Names of the shader objects of the context. -/
def GLState.shaderNames (s : GLState) : List Nat :=
  s.shaders.map (fun sh => sh.name)

/-- Names of the program objects of the context. -/
def GLState.programNames (s : GLState) : List Nat :=
  s.programs.map (fun p => p.name)

/-- Names of the buffer objects of the context. -/
def GLState.bufferNames (s : GLState) : List Nat :=
  s.buffers.map (fun b => b.name)

/-- Shader and program objects share one name space. -/
def GLState.objectNames (s : GLState) : List Nat :=
  s.shaderNames ++ s.programNames

/-- Whether the shader named `shader` is attached to one of `programs`. -/
def attachedSomewhere (programs : List ProgramObj) (shader : Nat) : Bool :=
  programs.any (fun p => decide (shader ∈ p.attached))

/-- Whether the program named `program` has been linked successfully. -/
def GLState.programLinked (s : GLState) (program : Nat) : Bool :=
  s.programs.any (fun p => decide (p.name = program) && p.linked)

/-- The type and source of the shader object named `shader`, if there is one
and its last compilation succeeded. -/
def GLState.compiledShader (s : GLState) (shader : Nat) : Option (Nat × String) :=
  match s.shaders.find? (fun sh => decide (sh.name = shader)) with
  | some sh => if sh.compiled then some (sh.type, sh.source.getD "") else none
  | none => none

/-- Whether the program named `program` is flagged for deletion. -/
def GLState.programFlagged (s : GLState) (program : Nat) : Bool :=
  s.programs.any (fun p => decide (p.name = program) && p.deleteFlag)

/-- The command `glCreateShader`: a new shader object under a fresh name, or
0 and no object when the creation fails. -/
def glCreateShader (drv : Driver) (type : Nat) (w : World) : Nat × World :=
  if drv.createOk w.gl then
    let n := freshName w.gl.objectNames
    (n, w.run (.createShader type n)
      { w.gl with shaders := w.gl.shaders ++ [⟨n, type, none, false, false⟩] })
  else
    (0, w.run (.createShader type 0) w.gl)

/-- The command `glShaderSource(shader, count, &src, NULL)` with one string. -/
def glShaderSource (shader count : Nat) (src : String) (w : World) : World :=
  w.run (.shaderSource shader count src)
    { w.gl with
      shaders := w.gl.shaders.map
        (fun sh => if sh.name = shader then { sh with source := some src } else sh) }

/-- The command `glCompileShader`: the compile status of the shader object
becomes what the GLSL compiler makes of its source. -/
def glCompileShader (drv : Driver) (shader : Nat) (w : World) : World :=
  w.run (.compileShader shader)
    { w.gl with
      shaders := w.gl.shaders.map
        (fun sh => if sh.name = shader
                   then { sh with compiled := drv.compiles sh.type (sh.source.getD "") } else sh) }

/-- The command `glCreateProgram`: a new program object under a fresh name, or
0 and no object when the creation fails. -/
def glCreateProgram (drv : Driver) (w : World) : Nat × World :=
  if drv.createOk w.gl then
    let n := freshName w.gl.objectNames
    (n, w.run (.createProgram n)
      { w.gl with programs := w.gl.programs ++ [⟨n, [], false, false⟩] })
  else
    (0, w.run (.createProgram 0) w.gl)

/-- The command `glAttachShader`: attaches a shader object to a program
object it is not yet attached to. -/
def glAttachShader (program shader : Nat) (w : World) : World :=
  w.run (.attachShader program shader)
    (if shader ∈ w.gl.shaderNames then
      { w.gl with
        programs := w.gl.programs.map
          (fun p => if p.name = program ∧ shader ∉ p.attached
                    then { p with attached := p.attached ++ [shader] } else p) }
     else w.gl)

/-- The command `glLinkProgram`: the link succeeds when every attached shader
is a successfully compiled shader object and the linker accepts them. -/
def glLinkProgram (drv : Driver) (program : Nat) (w : World) : World :=
  w.run (.linkProgram program)
    { w.gl with
      programs := w.gl.programs.map
        (fun p => if p.name = program
                  then { p with
                         linked := p.attached.all (fun n => (w.gl.compiledShader n).isSome)
                           && drv.links (p.attached.filterMap w.gl.compiledShader) }
                  else p) }

/-- The command `glDeleteShader`.  A shader object attached to a program
object is flagged for deletion and stays until it is attached to none; a
shader object attached to no program object is deleted at once. -/
def glDeleteShader (shader : Nat) (w : World) : World :=
  w.run (.deleteShader shader)
    (if attachedSomewhere w.gl.programs shader then
      { w.gl with
        shaders := w.gl.shaders.map
          (fun sh => if sh.name = shader then { sh with deleteFlag := true } else sh) }
     else
      { w.gl with shaders := w.gl.shaders.filter (fun sh => decide (sh.name ≠ shader)) })

/-- Removal of the program object `program`: its shader objects are detached,
and a detached shader object that was flagged for deletion and is attached to
no other program object goes with it. -/
def GLState.removeProgram (s : GLState) (program : Nat) : GLState :=
  let programs := s.programs.filter (fun p => decide (p.name ≠ program))
  { s with
    programs := programs
    shaders := s.shaders.filter
      (fun sh => !(sh.deleteFlag && !attachedSomewhere programs sh.name)) }

/-- The command `glDeleteProgram`.  A program object that is in use as part of
the current rendering state is flagged for deletion and stays until it is no
longer current; any other program object is deleted at once. -/
def glDeleteProgram (program : Nat) (w : World) : World :=
  w.run (.deleteProgram program)
    (if program ∈ w.gl.programNames then
      if program = w.gl.currentProgram then
        { w.gl with
          programs := w.gl.programs.map
            (fun p => if p.name = program then { p with deleteFlag := true } else p) }
      else w.gl.removeProgram program
     else w.gl)

/-- The command `glUseProgram`: makes program 0 or a successfully linked
program object current; a program object that is not linked is refused.  The
program object that stops being current is deleted if it was flagged for
deletion. -/
def glUseProgram (program : Nat) (w : World) : World :=
  w.run (.useProgram program)
    (if program = 0 ∨ w.gl.programLinked program = true then
      let old := w.gl.currentProgram
      let s := { w.gl with currentProgram := program }
      if old ≠ program ∧ w.gl.programFlagged old = true then s.removeProgram old else s
     else w.gl)

/-- The query `glGetUniformLocation`.  The location of a uniform is assigned
by the GLSL linker; `uniformLocation` stands for that assignment. -/
def glGetUniformLocation (uniformLocation : Nat → String → Int) (program : Nat) (name : String)
    (w : World) : Int × World :=
  (uniformLocation program name,
   w.run (.getUniformLocation program name (uniformLocation program name)) w.gl)

/-- The command `glUniformMatrix4fv`; uniform values are not tracked. -/
def glUniformMatrix4fv (location : Int) (count transpose : Nat) (value : List Nat)
    (w : World) : World :=
  w.run (.uniformMatrix4fv location count transpose value) w.gl

/-! ## Vertex array and buffer commands -/

/-- The command `glGenVertexArrays(1, &array)`.  A generated name counts as a
vertex array of the context from here on. -/
def glGenVertexArrays (w : World) : Nat × World :=
  let n := freshName w.gl.vertexArrays
  (n, w.run (.genVertexArrays 1 n) { w.gl with vertexArrays := w.gl.vertexArrays ++ [n] })

/-- The command `glBindVertexArray`. -/
def glBindVertexArray (array : Nat) (w : World) : World :=
  w.run (.bindVertexArray array)
    (if array = 0 ∨ array ∈ w.gl.vertexArrays then { w.gl with vertexArrayBinding := array }
     else w.gl)

/-- The command `glDeleteVertexArrays(1, &array)`: the name is released at
once, and the binding reverts to zero if the array was bound. -/
def glDeleteVertexArrays (array : Nat) (w : World) : World :=
  w.run (.deleteVertexArrays 1 array)
    (if array ∈ w.gl.vertexArrays then
      { w.gl with
        vertexArrays := w.gl.vertexArrays.filter (fun a => decide (a ≠ array))
        vertexArrayBinding := if w.gl.vertexArrayBinding = array then 0 else w.gl.vertexArrayBinding }
     else w.gl)

/-- The command `glGenBuffers(1, &buffer)`.  A generated name counts as a
buffer object of the context, with an empty data store, from here on. -/
def glGenBuffers (w : World) : Nat × World :=
  let n := freshName w.gl.bufferNames
  (n, w.run (.genBuffers 1 n) { w.gl with buffers := w.gl.buffers ++ [⟨n, 0, [], 0⟩] })

/-- The command `glBindBuffer`; only the `GL_ARRAY_BUFFER` binding is tracked. -/
def glBindBuffer (target buffer : Nat) (w : World) : World :=
  w.run (.bindBuffer target buffer)
    (if target = GL_ARRAY_BUFFER ∧ (buffer = 0 ∨ buffer ∈ w.gl.bufferNames)
     then { w.gl with arrayBufferBinding := buffer } else w.gl)

/-- The command `glBufferData`: a new data store for the buffer object bound
to `GL_ARRAY_BUFFER`.  `size` is the 64-bit pattern of the `GLsizeiptr`
argument; a pattern with the sign bit set is a negative size and is rejected. -/
def glBufferData (target size : Nat) (data : List Nat) (usage : Nat) (w : World) : World :=
  w.run (.bufferData target size data usage)
    (if target = GL_ARRAY_BUFFER ∧ size < 2 ^ 63 then
      { w.gl with
        buffers := w.gl.buffers.map
          (fun b => if b.name = w.gl.arrayBufferBinding
                    then { b with size := size, data := data, usage := usage } else b) }
     else w.gl)

/-- The command `glDeleteBuffers(1, &buffer)`: the name is released at once,
and the binding reverts to zero if the buffer was bound. -/
def glDeleteBuffers (buffer : Nat) (w : World) : World :=
  w.run (.deleteBuffers 1 buffer)
    (if buffer ∈ w.gl.bufferNames then
      { w.gl with
        buffers := w.gl.buffers.filter (fun b => decide (b.name ≠ buffer))
        arrayBufferBinding := if w.gl.arrayBufferBinding = buffer then 0 else w.gl.arrayBufferBinding }
     else w.gl)

/-- The command `glVertexAttribPointer`; attribute arrays are not tracked. -/
def glVertexAttribPointer (index size type normalized stride offset : Nat) (w : World) : World :=
  w.run (.vertexAttribPointer index size type normalized stride offset) w.gl

/-- The command `glEnableVertexAttribArray`; attribute arrays are not tracked. -/
def glEnableVertexAttribArray (index : Nat) (w : World) : World :=
  w.run (.enableVertexAttribArray index) w.gl

/-- The command `glDrawArrays`; framebuffer contents are not tracked. -/
def glDrawArrays (mode first count : Nat) (w : World) : World :=
  w.run (.drawArrays mode first count) w.gl

/-! ## The wrappers of `renderer.h` -/

/-- The function `dl_renderer_enable_transparency`. -/
def dl_renderer_enable_transparency (toggle : Bool) (w : World) : Option Int × World :=
  if toggle then
    let w := glBlendFunc GL_SRC_ALPHA GL_ONE_MINUS_SRC_ALPHA w
    let w := glEnable GL_BLEND w
    (some 0, w)
  else
    (some 0, w)

/-- The function `dl_renderer_enable_depth_test`. -/
def dl_renderer_enable_depth_test (toggle : Bool) (w : World) : Option Int × World :=
  if toggle then
    let w := glEnable GL_DEPTH_TEST w
    let w := glDepthFunc GL_LESS w
    (some 0, w)
  else
    (some 0, w)

/-- The function `dl_renderer_enable_culling`. -/
def dl_renderer_enable_culling (toggle : Bool) (w : World) : Option Int × World :=
  if toggle then
    let w := glEnable GL_CULL_FACE w
    let w := glCullFace GL_FRONT w
    let w := glFrontFace GL_CCW w
    (some 0, w)
  else
    (some 0, w)

/-- The function `dl_renderer_enable_antialiasing`. -/
def dl_renderer_enable_antialiasing (toggle : Bool) (w : World) : Option Int × World :=
  if toggle then
    let w := glEnable GL_LINE_SMOOTH w
    (some 0, w)
  else
    (some 0, w)

/-- The function `dl_renderer_set_background`. -/
def dl_renderer_set_background (color : Vec3) (w : World) : Option Int × World :=
  let w := glClearColor color.x color.y color.z float_one w
  (some 0, w)

/-- The function `dl_renderer_clear`. -/
def dl_renderer_clear (w : World) : Option Int × World :=
  let w := glClear (GL_COLOR_BUFFER_BIT ||| GL_DEPTH_BUFFER_BIT) w
  (some 0, w)

/-- The function `dl_renderer_compile_shaders`.  No result of a GL command is
checked. -/
def dl_renderer_compile_shaders (drv : Driver) (renderer : DL_Renderer)
    (v_shader_src f_shader_src : String) (w : World) : Outcome :=
  let (vertex_shader, w) := glCreateShader drv GL_VERTEX_SHADER w
  let w := glShaderSource vertex_shader 1 v_shader_src w
  let w := glCompileShader drv vertex_shader w
  let (fragment_shader, w) := glCreateShader drv GL_FRAGMENT_SHADER w
  let w := glShaderSource fragment_shader 1 f_shader_src w
  let w := glCompileShader drv fragment_shader w
  let (program, w) := glCreateProgram drv w
  let renderer := { renderer with shader_program := program }
  let w := glAttachShader renderer.shader_program vertex_shader w
  let w := glAttachShader renderer.shader_program fragment_shader w
  let w := glLinkProgram drv renderer.shader_program w
  let w := glDeleteShader vertex_shader w
  let w := glDeleteShader fragment_shader w
  ⟨some 0, renderer, w⟩

/-- The function `dl_renderer_unbind_vao`. -/
def dl_renderer_unbind_vao (renderer : DL_Renderer) (w : World) : Outcome :=
  let w := glBindVertexArray 0 w
  ⟨some 0, renderer, w⟩

/-- The function `dl_renderer_unbind_vbo`. -/
def dl_renderer_unbind_vbo (renderer : DL_Renderer) (w : World) : Outcome :=
  let w := glBindBuffer GL_ARRAY_BUFFER 0 w
  ⟨some 0, renderer, w⟩

/-- The function `dl_renderer_unbind_all`. -/
def dl_renderer_unbind_all (renderer : DL_Renderer) (w : World) : Outcome :=
  let o := dl_renderer_unbind_vao renderer w
  let o := dl_renderer_unbind_vbo o.renderer o.world
  ⟨some 0, o.renderer, o.world⟩

/-- The function `dl_renderer_gen_vao`. -/
def dl_renderer_gen_vao (renderer : DL_Renderer) (w : World) : Outcome :=
  let (vao, w) := glGenVertexArrays w
  ⟨some 0, { renderer with vao := vao }, w⟩

/-- The assignment `renderer->vertex_count = size / sizeof(float) * 5`: the
right-hand side is computed in `size_t` (64 bits) and stored in an
`unsigned int` (32 bits). -/
def vertex_count_of (size : Nat) : Nat :=
  ((size / sizeof_float * 5) % 2 ^ 64) % 2 ^ 32

/-- The function `dl_renderer_gen_vbo`.  `data` is the array of floats (as bit
patterns) behind the pointer, `size` the `size_t` byte count.  The body has no
`return` statement. -/
def dl_renderer_gen_vbo (renderer : DL_Renderer) (data : List Nat) (size : Nat)
    (w : World) : Outcome :=
  let w := glBindVertexArray renderer.vao w
  let (vbo, w) := glGenBuffers w
  let renderer := { renderer with vbo := vbo }
  let w := glBindBuffer GL_ARRAY_BUFFER renderer.vbo w
  let w := glBufferData GL_ARRAY_BUFFER size data GL_STATIC_DRAW w
  let w := glBindVertexArray 0 w
  let renderer := { renderer with vertex_count := vertex_count_of size }
  ⟨none, renderer, w⟩

/-- The function `dl_renderer_link_attrib`.  `stride` is the 64-bit pattern of
the `GLsizeiptr` parameter; `glVertexAttribPointer` takes a 32-bit `GLsizei`,
so the low 32 bits are what it is given. -/
def dl_renderer_link_attrib (renderer : DL_Renderer) (layout amount type stride offset : Nat)
    (w : World) : Outcome :=
  let w := glBindVertexArray renderer.vao w
  let w := glVertexAttribPointer layout amount type GL_FALSE (stride % 2 ^ 32) offset w
  let w := glEnableVertexAttribArray layout w
  ⟨some 0, renderer, w⟩

/-- The function `dl_renderer_use_program`.  `camera_matrix` is the value of
the global `camera.camera_matrix` of `camera.h` at the time of the call. -/
def dl_renderer_use_program (uniformLocation : Nat → String → Int) (camera_matrix : List Nat)
    (renderer : DL_Renderer) (w : World) : Outcome :=
  let w := glUseProgram renderer.shader_program w
  let (location, w) := glGetUniformLocation uniformLocation renderer.shader_program "camera_matrix" w
  let w := glUniformMatrix4fv location 1 GL_FALSE camera_matrix w
  ⟨some 0, renderer, w⟩

/-- The function `dl_renderer_bind_vao`. -/
def dl_renderer_bind_vao (renderer : DL_Renderer) (w : World) : Outcome :=
  let w := glBindVertexArray renderer.vao w
  ⟨some 0, renderer, w⟩

/-- The function `dl_renderer_draw`. -/
def dl_renderer_draw (renderer : DL_Renderer) (w : World) : Outcome :=
  let w := glDrawArrays GL_TRIANGLES 0 renderer.vertex_count w
  ⟨some 0, renderer, w⟩

/-- The function `dl_renderer_delete`. -/
def dl_renderer_delete (renderer : DL_Renderer) (w : World) : Outcome :=
  let w := glDeleteVertexArrays renderer.vao w
  let w := glDeleteBuffers renderer.vbo w
  let w := glDeleteProgram renderer.shader_program w
  ⟨some 0, renderer, w⟩

/-! ## Definitions used to state the properties -/

/-- The four render-state toggles. -/
inductive Toggle where
  | transparency
  | depth_test
  | culling
  | antialiasing
  deriving DecidableEq, Repr

/-- The wrapper behind a toggle. -/
def Toggle.call (t : Toggle) (toggle : Bool) (w : World) : Option Int × World :=
  match t with
  | .transparency => dl_renderer_enable_transparency toggle w
  | .depth_test => dl_renderer_enable_depth_test toggle w
  | .culling => dl_renderer_enable_culling toggle w
  | .antialiasing => dl_renderer_enable_antialiasing toggle w

/-- The capability a toggle stands for. -/
def Toggle.capability (t : Toggle) : Nat :=
  match t with
  | .transparency => GL_BLEND
  | .depth_test => GL_DEPTH_TEST
  | .culling => GL_CULL_FACE
  | .antialiasing => GL_LINE_SMOOTH

/-- A sequence of toggle calls, run from left to right. -/
def runToggles (calls : List (Toggle × Bool)) (w : World) : World :=
  calls.foldl (fun w c => (c.1.call c.2 w).2) w

/-- A context in which nothing has been created, enabled or recorded, with
the initial values the OpenGL specification gives the tracked parameters. -/
def GLState.initial : GLState :=
  { errors := [], blend := false, depthTest := false, cullFace := false, lineSmooth := false,
    blendSrc := GL_ONE, blendDst := GL_ZERO, depthFunc := GL_LESS, cullFaceMode := GL_BACK,
    frontFace := GL_CCW, vertexArrayBinding := 0, arrayBufferBinding := 0, currentProgram := 0,
    vertexArrays := [], buffers := [], shaders := [], programs := [] }

/-- The world before any call. -/
def World.initial : World :=
  { gl := GLState.initial, log := [], out := [] }

/-- A renderer record with all fields zero. -/
def DL_Renderer.zero : DL_Renderer :=
  { shader_program := 0, vao := 0, vbo := 0, vertex_count := 0 }

/-- The error code `GL_CONTEXT_LOST` of OpenGL 4.5, with its value in the
OpenGL registry, which `glGetError` can hand back and which the `switch` of
`dl_renderer_opengl_error` does not name. -/
def GL_CONTEXT_LOST : Nat := 0x0507

/-- A vertex shader source that reads `camera_matrix`. -/
def vertexSource : String :=
  "#version 330 core\nlayout (location = 0) in vec3 pos;\nuniform mat4 camera_matrix;\nvoid main() \x7b gl_Position = camera_matrix * vec4(pos, 1.0); \x7d\n"

/-- A fragment shader source. -/
def fragmentSource : String :=
  "#version 330 core\nout vec4 colour;\nvoid main() \x7b colour = vec4(1.0); \x7d\n"

/-- A pair of sources is valid for a driver when its compiler accepts each
for its stage and its linker accepts the two together. -/
def validSources (drv : Driver) (v_shader_src f_shader_src : String) : Bool :=
  drv.compiles GL_VERTEX_SHADER v_shader_src && drv.compiles GL_FRAGMENT_SHADER f_shader_src
    && drv.links [(GL_VERTEX_SHADER, v_shader_src), (GL_FRAGMENT_SHADER, f_shader_src)]

/-- A driver for which `vertexSource` and `fragmentSource` are valid and
which never fails to create an object. -/
def Driver.sample : Driver :=
  { compiles := fun type source =>
      (decide (type = GL_VERTEX_SHADER) && decide (source = vertexSource))
        || (decide (type = GL_FRAGMENT_SHADER) && decide (source = fragmentSource))
    links := fun shaders =>
      decide (shaders = [(GL_VERTEX_SHADER, vertexSource), (GL_FRAGMENT_SHADER, fragmentSource)])
    createOk := fun _ => true }

/-- A zeroed renderer after `dl_renderer_compile_shaders` on the two valid
sources, in the world before any call. -/
def sessionCompiled : Outcome :=
  dl_renderer_compile_shaders Driver.sample DL_Renderer.zero vertexSource fragmentSource
    World.initial

/-- The renderer of `sessionCompiled` with its vertex array and its buffer of
three floats generated; its program has not been made current. -/
def sessionReady : Outcome :=
  let o := sessionCompiled
  let o := dl_renderer_gen_vao o.renderer o.world
  dl_renderer_gen_vbo o.renderer [0, 0, 0] 12 o.world

/-- The renderer of `sessionReady` after `dl_renderer_use_program`, as in
every frame of a render loop: its program is current. -/
def sessionInUse : Outcome :=
  dl_renderer_use_program (fun _ _ => 0) [] sessionReady.renderer sessionReady.world

/-- The seven error codes the `switch` of `dl_renderer_opengl_error` names. -/
def namedErrorCodes : List Nat :=
  [GL_INVALID_ENUM, GL_INVALID_VALUE, GL_INVALID_OPERATION, GL_STACK_OVERFLOW,
   GL_STACK_UNDERFLOW, GL_OUT_OF_MEMORY, GL_INVALID_FRAMEBUFFER_OPERATION]

/-- The world before any call, with the error codes `q` pending. -/
def World.withErrors (q : List Nat) : World :=
  { World.initial with gl := { GLState.initial with errors := q } }

/-! ## Error polling: general facts -/

theorem opengl_error_loop_nil (file : String) (line : Int) (w : World) (h : w.gl.errors = []) :
    opengl_error_loop file line w = (some GL_NO_ERROR, w.run (.getError GL_NO_ERROR) w.gl) := by
  rw [opengl_error_loop]
  simp [glGetError, h]

theorem opengl_error_loop_cons (file : String) (line : Int) (w : World) (e : Nat)
    (rest : List Nat) (h : w.gl.errors = e :: rest) (he : e ≠ GL_NO_ERROR)
    (hn : errorName e ≠ none) :
    opengl_error_loop file line w =
      opengl_error_loop file line
        (printf (errorName e) file line (w.run (.getError e) { w.gl with errors := rest })) := by
  rw [opengl_error_loop]
  simp [glGetError, h, he, hn]

theorem opengl_error_loop_unnamed (file : String) (line : Int) (w : World) (e : Nat)
    (rest : List Nat) (h : w.gl.errors = e :: rest) (he : e ≠ GL_NO_ERROR)
    (hn : errorName e = none) :
    opengl_error_loop file line w =
      (none, printf none file line (w.run (.getError e) { w.gl with errors := rest })) := by
  rw [opengl_error_loop]
  simp [glGetError, h, he, hn]

/-- A code the `switch` names is not `GL_NO_ERROR` and is given a name. -/
theorem named_code (e : Nat) (h : e ∈ namedErrorCodes) :
    e ≠ GL_NO_ERROR ∧ ∃ n, errorName e = some n := by
  simp only [namedErrorCodes, List.mem_cons, List.mem_singleton, List.not_mem_nil,
    or_false] at h
  rcases h with h | h | h | h | h | h | h <;> subst h <;> exact ⟨by decide, _, rfl⟩

/-- The loop on a queue of codes the `switch` names: every code is taken off
the queue by one `glGetError`, one `printf` is made for it, and a last
`glGetError` finds the queue empty and leaves `errorCode` at `GL_NO_ERROR`. -/
theorem opengl_error_loop_drains (file : String) (line : Int) (q : List Nat) :
    ∀ w : World, w.gl.errors = q → (∀ e ∈ q, e ∈ namedErrorCodes) →
      opengl_error_loop file line w =
        (some GL_NO_ERROR,
          { gl := { w.gl with errors := [] }
            log := w.log ++ q.map GLCall.getError ++ [GLCall.getError GL_NO_ERROR]
            out := w.out ++ q.map (fun e => formatLine (errorName e) file line) }) := by
  induction q with
  | nil =>
    intro w h _
    rw [opengl_error_loop_nil file line w h]
    simp [World.run, ← h]
  | cons e rest ih =>
    intro w h hq
    obtain ⟨he, n, hn⟩ := named_code e (hq e (by simp))
    rw [opengl_error_loop_cons file line w e rest h he (by simp [hn])]
    rw [ih _ (by simp [printf, World.run]) (fun x hx => hq x (by simp [hx]))]
    simp [printf, World.run]

/-- On a queue of codes the `switch` names, the value handed back by
`dl_renderer_opengl_error` is `GL_NO_ERROR`. -/
theorem opengl_error_ret (file : String) (line : Int) (w : World)
    (hq : ∀ e ∈ w.gl.errors, e ∈ namedErrorCodes) :
    (dl_renderer_opengl_error file line w).1 = some 0 := by
  have h := opengl_error_loop_drains file line w.gl.errors w rfl hq
  simp [dl_renderer_opengl_error, h, GL_NO_ERROR, toInt]

/-- The part of the behaviour of `dl_renderer_opengl_error` that holds for a
queue of codes the `switch` names: the queue is emptied and one line with the
name of the code, the file and the line is printed per code, in queue order. -/
theorem opengl_error_named_queue (file : String) (line : Int) (w : World)
    (hq : ∀ e ∈ w.gl.errors, e ∈ namedErrorCodes) :
    (dl_renderer_opengl_error file line w).2.gl.errors = [] ∧
    (∃ names : List String,
      names.length = w.gl.errors.length ∧
      (dl_renderer_opengl_error file line w).2.out =
        w.out ++ names.map (fun n => some (n ++ " | " ++ file ++ " (" ++ toString line ++ ")\n")) ∧
      List.Forall₂ (fun e n => errorName e = some n) w.gl.errors names) := by
  have h := opengl_error_loop_drains file line w.gl.errors w rfl hq
  refine ⟨by simp [dl_renderer_opengl_error, h], ?_⟩
  have key : ∀ q : List Nat, (∀ e ∈ q, e ∈ namedErrorCodes) →
      ∃ names : List String, names.length = q.length ∧
        q.map (fun e => formatLine (errorName e) file line) =
          names.map (fun n => some (n ++ " | " ++ file ++ " (" ++ toString line ++ ")\n")) ∧
        List.Forall₂ (fun e n => errorName e = some n) q names := by
    intro q
    induction q with
    | nil => intro _; exact ⟨[], rfl, rfl, List.Forall₂.nil⟩
    | cons e rest ih =>
      intro hq
      obtain ⟨names, hl, hm, hf⟩ := ih (fun x hx => hq x (by simp [hx]))
      obtain ⟨_, n, hn⟩ := named_code e (hq e (by simp))
      refine ⟨n :: names, by simp [hl], ?_, List.Forall₂.cons hn hf⟩
      rw [List.map_cons, List.map_cons, hm, hn]
      rfl
  obtain ⟨names, hl, hm, hf⟩ := key w.gl.errors hq
  exact ⟨names, hl, by simp [dl_renderer_opengl_error, h, hm], hf⟩

/-! ## Render-state toggles: general facts -/

/-- The command `glEnable` turns no capability off. -/
theorem glEnable_keeps (c : Nat) (w : World) (cap : Nat)
    (h : glIsEnabled w.gl cap = true) : glIsEnabled (glEnable c w).gl cap = true := by
  unfold glEnable World.run
  unfold glIsEnabled at h ⊢
  dsimp only
  split_ifs at h ⊢ <;> first | rfl | exact h

/-- No toggle call, on or off, turns a capability off. -/
theorem toggle_call_keeps (t : Toggle) (b : Bool) (w : World) (cap : Nat)
    (h : glIsEnabled w.gl cap = true) : glIsEnabled (t.call b w).2.gl cap = true := by
  cases t <;> cases b
  all_goals first
    | exact h
    | exact glEnable_keeps GL_BLEND (glBlendFunc GL_SRC_ALPHA GL_ONE_MINUS_SRC_ALPHA w) cap h
    | exact glEnable_keeps GL_DEPTH_TEST w cap h
    | exact glEnable_keeps GL_CULL_FACE w cap h
    | exact glEnable_keeps GL_LINE_SMOOTH w cap h

/-- No sequence of toggle calls turns a capability off. -/
theorem runToggles_keeps (calls : List (Toggle × Bool)) :
    ∀ (w : World) (cap : Nat), glIsEnabled w.gl cap = true →
      glIsEnabled (runToggles calls w).gl cap = true := by
  induction calls with
  | nil => intro w cap h; exact h
  | cons c rest ih =>
    intro w cap h
    exact ih _ cap (toggle_call_keeps c.1 c.2 w cap h)

theorem runToggles_append (pre post : List (Toggle × Bool)) (w : World) :
    runToggles (pre ++ post) w = runToggles post (runToggles pre w) := by
  simp [runToggles, List.foldl_append]

/-! ## Object names: general facts -/

theorem le_foldl_max (l : List Nat) : ∀ a : Nat, a ≤ l.foldl max a ∧ ∀ x ∈ l, x ≤ l.foldl max a := by
  induction l with
  | nil => intro a; simp
  | cons y ys ih =>
    intro a
    obtain ⟨h1, h2⟩ := ih (max a y)
    refine ⟨le_trans (le_max_left a y) h1, ?_⟩
    intro x hx
    rcases List.mem_cons.mp hx with rfl | hx
    · exact le_trans (le_max_right a x) h1
    · exact h2 x hx

/-- A fresh name is not in use. -/
theorem freshName_not_mem (used : List Nat) : freshName used ∉ used := by
  intro h
  have := (le_foldl_max used 0).2 _ h
  unfold freshName at this
  omega

/-- A fresh name is not zero. -/
theorem freshName_ne_zero (used : List Nat) : freshName used ≠ 0 := by
  unfold freshName
  omega

/-! ## Vertex array and buffer commands: general facts -/

theorem glBindVertexArray_log (a : Nat) (w : World) :
    (glBindVertexArray a w).log = w.log ++ [GLCall.bindVertexArray a] := rfl

theorem glBindVertexArray_buffers (a : Nat) (w : World) :
    (glBindVertexArray a w).gl.buffers = w.gl.buffers := by
  unfold glBindVertexArray World.run
  dsimp only
  split_ifs <;> rfl

theorem glBindVertexArray_zero (w : World) :
    (glBindVertexArray 0 w).gl.vertexArrayBinding = 0 := by
  simp [glBindVertexArray, World.run]

theorem glGenBuffers_log (w : World) :
    (glGenBuffers w).2.log = w.log ++ [GLCall.genBuffers 1 (glGenBuffers w).1] := rfl

theorem glGenBuffers_fst (w : World) :
    (glGenBuffers w).1 = freshName w.gl.bufferNames := rfl

theorem glGenBuffers_bufferNames (w : World) :
    (glGenBuffers w).2.gl.bufferNames = w.gl.bufferNames ++ [(glGenBuffers w).1] := by
  simp [glGenBuffers, World.run, GLState.bufferNames]

theorem glBindBuffer_log (t b : Nat) (w : World) :
    (glBindBuffer t b w).log = w.log ++ [GLCall.bindBuffer t b] := rfl

theorem glBindBuffer_buffers (t b : Nat) (w : World) :
    (glBindBuffer t b w).gl.buffers = w.gl.buffers := by
  unfold glBindBuffer World.run
  dsimp only
  split_ifs <;> rfl

theorem glBufferData_log (t size : Nat) (data : List Nat) (u : Nat) (w : World) :
    (glBufferData t size data u w).log = w.log ++ [GLCall.bufferData t size data u] := rfl

theorem glBufferData_bufferNames (t size : Nat) (data : List Nat) (u : Nat) (w : World) :
    (glBufferData t size data u w).gl.bufferNames = w.gl.bufferNames := by
  unfold glBufferData World.run GLState.bufferNames
  dsimp only
  split_ifs
  · rw [List.map_map]
    apply List.map_congr_left
    intro b _
    simp only [Function.comp]
    split_ifs <;> rfl
  · rfl

/-- The world after `dl_renderer_gen_vbo`, as the chain of its five commands. -/
theorem dl_renderer_gen_vbo_world (renderer : DL_Renderer) (data : List Nat) (size : Nat)
    (w : World) :
    (dl_renderer_gen_vbo renderer data size w).world =
      glBindVertexArray 0
        (glBufferData GL_ARRAY_BUFFER size data GL_STATIC_DRAW
          (glBindBuffer GL_ARRAY_BUFFER (glGenBuffers (glBindVertexArray renderer.vao w)).1
            (glGenBuffers (glBindVertexArray renderer.vao w)).2)) := rfl

/-! ## Deleting objects: general facts -/

theorem glDeleteVertexArrays_not_mem (a : Nat) (w : World) :
    a ∉ (glDeleteVertexArrays a w).gl.vertexArrays := by
  unfold glDeleteVertexArrays World.run
  by_cases h : a ∈ w.gl.vertexArrays
  · simp only [if_pos h]
    simp [List.mem_filter]
  · simp only [if_neg h]
    exact h

theorem glDeleteVertexArrays_buffers (a : Nat) (w : World) :
    (glDeleteVertexArrays a w).gl.buffers = w.gl.buffers := by
  unfold glDeleteVertexArrays World.run
  dsimp only
  split_ifs <;> rfl

theorem glDeleteVertexArrays_programs (a : Nat) (w : World) :
    (glDeleteVertexArrays a w).gl.programs = w.gl.programs := by
  unfold glDeleteVertexArrays World.run
  dsimp only
  split_ifs <;> rfl

theorem glDeleteVertexArrays_currentProgram (a : Nat) (w : World) :
    (glDeleteVertexArrays a w).gl.currentProgram = w.gl.currentProgram := by
  unfold glDeleteVertexArrays World.run
  dsimp only
  split_ifs <;> rfl

theorem glDeleteBuffers_not_mem (b : Nat) (w : World) :
    b ∉ (glDeleteBuffers b w).gl.bufferNames := by
  unfold glDeleteBuffers World.run
  by_cases h : b ∈ w.gl.bufferNames
  · simp only [if_pos h]
    simp [GLState.bufferNames, List.mem_filter]
  · simp only [if_neg h]
    exact h

theorem glDeleteBuffers_vertexArrays (b : Nat) (w : World) :
    (glDeleteBuffers b w).gl.vertexArrays = w.gl.vertexArrays := by
  unfold glDeleteBuffers World.run
  dsimp only
  split_ifs <;> rfl

theorem glDeleteBuffers_programs (b : Nat) (w : World) :
    (glDeleteBuffers b w).gl.programs = w.gl.programs := by
  unfold glDeleteBuffers World.run
  dsimp only
  split_ifs <;> rfl

theorem glDeleteBuffers_currentProgram (b : Nat) (w : World) :
    (glDeleteBuffers b w).gl.currentProgram = w.gl.currentProgram := by
  unfold glDeleteBuffers World.run
  dsimp only
  split_ifs <;> rfl

theorem glDeleteProgram_vertexArrays (p : Nat) (w : World) :
    (glDeleteProgram p w).gl.vertexArrays = w.gl.vertexArrays := by
  unfold glDeleteProgram World.run GLState.removeProgram
  dsimp only
  split_ifs <;> rfl

theorem glDeleteProgram_buffers (p : Nat) (w : World) :
    (glDeleteProgram p w).gl.buffers = w.gl.buffers := by
  unfold glDeleteProgram World.run GLState.removeProgram
  dsimp only
  split_ifs <;> rfl

/-- A program object that is not current is gone after `glDeleteProgram`. -/
theorem glDeleteProgram_not_mem (p : Nat) (w : World) (h : p ≠ w.gl.currentProgram) :
    p ∉ (glDeleteProgram p w).gl.programNames := by
  unfold glDeleteProgram World.run GLState.removeProgram
  by_cases h1 : p ∈ w.gl.programNames
  · simp only [if_pos h1, if_neg h]
    simp [GLState.programNames, List.mem_filter]
  · simp only [if_neg h1]
    exact h1

/-- A program object that is current is still there after `glDeleteProgram`,
flagged for deletion. -/
theorem glDeleteProgram_current (p : Nat) (w : World) (h : p = w.gl.currentProgram)
    (hp : p ∈ w.gl.programNames) :
    p ∈ (glDeleteProgram p w).gl.programNames ∧
    (glDeleteProgram p w).gl.programFlagged p = true := by
  unfold glDeleteProgram World.run
  simp only [if_pos hp, if_pos h]
  simp only [GLState.programNames, List.mem_map] at hp ⊢
  obtain ⟨q, hq, hn⟩ := hp
  constructor
  · exact ⟨_, ⟨q, hq, rfl⟩, by simp [hn]⟩
  · simp only [GLState.programFlagged, List.any_eq_true, List.mem_map]
    exact ⟨_, ⟨q, hq, rfl⟩, by simp [hn]⟩

/-- The world after `dl_renderer_delete`, as the chain of its three commands. -/
theorem dl_renderer_delete_world (renderer : DL_Renderer) (w : World) :
    (dl_renderer_delete renderer w).world =
      glDeleteProgram renderer.shader_program
        (glDeleteBuffers renderer.vbo (glDeleteVertexArrays renderer.vao w)) := rfl

/-! ## Shader and program commands: general facts -/

theorem glShaderSource_programs (sh c : Nat) (src : String) (w : World) :
    (glShaderSource sh c src w).gl.programs = w.gl.programs := rfl

theorem glCompileShader_programs (drv : Driver) (sh : Nat) (w : World) :
    (glCompileShader drv sh w).gl.programs = w.gl.programs := rfl

theorem glLinkProgram_shaders (drv : Driver) (p : Nat) (w : World) :
    (glLinkProgram drv p w).gl.shaders = w.gl.shaders := rfl

/-- C1 (as amended): after `dl_renderer_gen_vbo`, for every byte size,
`vertex_count` is `bytes / sizeof(float) * 5` reduced modulo `2^32`, the width
of the field; for a byte size of `N * sizeof(float)` it is `N * 5` whenever
`N * 5` fits in 32 bits. -/
theorem C1_vertex_count (renderer : DL_Renderer) (data : List Nat) (w : World) (N : Nat)
    (hN : N * 5 < 2 ^ 32) :
    (∀ size : Nat, (dl_renderer_gen_vbo renderer data size w).renderer.vertex_count =
      (size / sizeof_float * 5) % 2 ^ 32) ∧
    (dl_renderer_gen_vbo renderer data (N * sizeof_float) w).renderer.vertex_count = N * 5 := by
  have h : ∀ size : Nat, (dl_renderer_gen_vbo renderer data size w).renderer.vertex_count =
      (size / sizeof_float * 5) % 2 ^ 32 := by
    intro size
    simp only [dl_renderer_gen_vbo, vertex_count_of]
    exact Nat.mod_mod_of_dvd _ (by decide)
  refine ⟨h, ?_⟩
  rw [h]
  have h4 : N * sizeof_float / sizeof_float = N := by simp [sizeof_float]
  rw [h4]
  exact Nat.mod_eq_of_lt hN

/-- C1, witness: twelve bytes, three floats, fifteen. -/
theorem C1_vertex_count_witness :
    (∀ size : Nat,
      (dl_renderer_gen_vbo DL_Renderer.zero [] size World.initial).renderer.vertex_count =
        (size / sizeof_float * 5) % 2 ^ 32) ∧
    (dl_renderer_gen_vbo DL_Renderer.zero [] (3 * sizeof_float) World.initial).renderer.vertex_count
      = 3 * 5 :=
  C1_vertex_count DL_Renderer.zero [] World.initial 3 (by decide)

/-- C1, counterexample: a buffer of 858993460 floats (3435973840 bytes, a
valid `size_t`) leaves `vertex_count` at 4, not at 858993460 * 5. -/
theorem C1_counterexample :
    858993460 * sizeof_float < 2 ^ 64 ∧
    (dl_renderer_gen_vbo DL_Renderer.zero [] (858993460 * sizeof_float)
      World.initial).renderer.vertex_count = 4 ∧
    4 ≠ 858993460 * 5 := by
  refine ⟨by decide, ?_, by decide⟩
  simp [dl_renderer_gen_vbo, vertex_count_of, sizeof_float]

/-- C2: with `GL_INVALID_ENUM` as the only queued error,
`dl_renderer_opengl_error` hands back `GL_NO_ERROR` (0), which is not the code
of the error it drained: `errorCode` is returned after the loop, and the loop
is left only once `errorCode` is `GL_NO_ERROR`. -/
theorem C2_returns_no_error_not_last_error :
    (World.withErrors [GL_INVALID_ENUM]).gl.errors = [GL_INVALID_ENUM] ∧
    (dl_renderer_opengl_error "renderer.c" 42 (World.withErrors [GL_INVALID_ENUM])).1 = some 0 ∧
    (some 0 : Option Int) ≠ some (GL_INVALID_ENUM : Nat) :=
  ⟨rfl, opengl_error_ret _ _ _ (by decide), by decide⟩

/-- C3: with an empty error queue `dl_renderer_opengl_error` prints nothing
and hands back 0, a value different from each of the seven named codes. -/
theorem C3_empty_queue (file : String) (line : Int) (w : World) (h : w.gl.errors = []) :
    (dl_renderer_opengl_error file line w).2.out = w.out ∧
    (dl_renderer_opengl_error file line w).1 = some 0 ∧
    ∀ c ∈ namedErrorCodes, (dl_renderer_opengl_error file line w).1 ≠ some ((c : Nat) : Int) := by
  have hq : ∀ e ∈ w.gl.errors, e ∈ namedErrorCodes := by simp [h]
  refine ⟨?_, opengl_error_ret file line w hq, ?_⟩
  · simp [dl_renderer_opengl_error, opengl_error_loop_nil file line w h, World.run]
  · intro c hc
    rw [opengl_error_ret file line w hq]
    simp only [namedErrorCodes, List.mem_cons, List.mem_singleton, List.not_mem_nil,
      or_false] at hc
    rcases hc with h | h | h | h | h | h | h <;> subst h <;> decide

/-- C3, witness: the world before any call. -/
theorem C3_empty_queue_witness :
    (dl_renderer_opengl_error "renderer.c" 42 World.initial).2.out = World.initial.out ∧
    (dl_renderer_opengl_error "renderer.c" 42 World.initial).1 = some 0 ∧
    ∀ c ∈ namedErrorCodes,
      (dl_renderer_opengl_error "renderer.c" 42 World.initial).1 ≠ some ((c : Nat) : Int) :=
  C3_empty_queue "renderer.c" 42 World.initial rfl

/-- C4: `dl_renderer_gen_vbo` has no `return` statement, so for every input it
hands back no determinate value, while each of the other sixteen wrappers
hands back 0 for every input. -/
theorem C4_gen_vbo_has_no_return_value :
    (∀ (renderer : DL_Renderer) (data : List Nat) (size : Nat) (w : World),
      (dl_renderer_gen_vbo renderer data size w).ret = none) ∧
    (∀ (toggle : Bool) (w : World), (dl_renderer_enable_transparency toggle w).1 = some 0) ∧
    (∀ (toggle : Bool) (w : World), (dl_renderer_enable_depth_test toggle w).1 = some 0) ∧
    (∀ (toggle : Bool) (w : World), (dl_renderer_enable_culling toggle w).1 = some 0) ∧
    (∀ (toggle : Bool) (w : World), (dl_renderer_enable_antialiasing toggle w).1 = some 0) ∧
    (∀ (color : Vec3) (w : World), (dl_renderer_set_background color w).1 = some 0) ∧
    (∀ w : World, (dl_renderer_clear w).1 = some 0) ∧
    (∀ (drv : Driver) (renderer : DL_Renderer) (v f : String) (w : World),
      (dl_renderer_compile_shaders drv renderer v f w).ret = some 0) ∧
    (∀ (renderer : DL_Renderer) (w : World), (dl_renderer_unbind_vao renderer w).ret = some 0) ∧
    (∀ (renderer : DL_Renderer) (w : World), (dl_renderer_unbind_vbo renderer w).ret = some 0) ∧
    (∀ (renderer : DL_Renderer) (w : World), (dl_renderer_unbind_all renderer w).ret = some 0) ∧
    (∀ (renderer : DL_Renderer) (w : World), (dl_renderer_gen_vao renderer w).ret = some 0) ∧
    (∀ (renderer : DL_Renderer) (layout amount type stride offset : Nat) (w : World),
      (dl_renderer_link_attrib renderer layout amount type stride offset w).ret = some 0) ∧
    (∀ (loc : Nat → String → Int) (camera_matrix : List Nat) (renderer : DL_Renderer) (w : World),
      (dl_renderer_use_program loc camera_matrix renderer w).ret = some 0) ∧
    (∀ (renderer : DL_Renderer) (w : World), (dl_renderer_bind_vao renderer w).ret = some 0) ∧
    (∀ (renderer : DL_Renderer) (w : World), (dl_renderer_draw renderer w).ret = some 0) ∧
    (∀ (renderer : DL_Renderer) (w : World), (dl_renderer_delete renderer w).ret = some 0) := by
  refine ⟨fun _ _ _ _ => rfl, ?_, ?_, ?_, ?_, fun _ _ => rfl, fun _ => rfl, fun _ _ _ _ _ => rfl,
    fun _ _ => rfl, fun _ _ => rfl, fun _ _ => rfl, fun _ _ => rfl, fun _ _ _ _ _ _ _ => rfl,
    fun _ _ _ _ => rfl, fun _ _ => rfl, fun _ _ => rfl, fun _ _ => rfl⟩ <;>
  · intro toggle w
    cases toggle <;> rfl

/-- C5: a toggle called with `false` issues no GL command and leaves the world
as it was, and a capability that is enabled after some toggle calls is still
enabled after any further toggle calls. -/
theorem C5_toggle_off_is_noop (pre post : List (Toggle × Bool)) (w : World) (cap : Nat)
    (h : glIsEnabled (runToggles pre w).gl cap = true) :
    (∀ (t : Toggle) (w0 : World), t.call false w0 = (some 0, w0)) ∧
    glIsEnabled (runToggles (pre ++ post) w).gl cap = true := by
  refine ⟨?_, ?_⟩
  · intro t w0
    cases t <;> rfl
  · rw [runToggles_append]
    exact runToggles_keeps post _ cap h

/-- C5, witness: blending is turned on, then every toggle is called with
`false` and two others with `true`. -/
theorem C5_toggle_off_is_noop_witness :
    (∀ (t : Toggle) (w0 : World), t.call false w0 = (some 0, w0)) ∧
    glIsEnabled (runToggles ([(Toggle.transparency, true)] ++
      [(Toggle.transparency, false), (Toggle.depth_test, false), (Toggle.culling, true),
       (Toggle.antialiasing, false), (Toggle.depth_test, true), (Toggle.culling, false)])
      World.initial).gl GL_BLEND = true :=
  C5_toggle_off_is_noop [(Toggle.transparency, true)] _ World.initial GL_BLEND (by decide)

/-- C6: from any world, each toggle called with `true` leaves its capability
enabled with the parameters the wrapper sets, and calling it once more with
`true` leaves the context state the same. -/
theorem C6_toggle_on_enables (w : World) :
    (glIsEnabled (dl_renderer_enable_transparency true w).2.gl GL_BLEND = true ∧
      (dl_renderer_enable_transparency true w).2.gl.blendSrc = GL_SRC_ALPHA ∧
      (dl_renderer_enable_transparency true w).2.gl.blendDst = GL_ONE_MINUS_SRC_ALPHA ∧
      (dl_renderer_enable_transparency true (dl_renderer_enable_transparency true w).2).2.gl =
        (dl_renderer_enable_transparency true w).2.gl) ∧
    (glIsEnabled (dl_renderer_enable_depth_test true w).2.gl GL_DEPTH_TEST = true ∧
      (dl_renderer_enable_depth_test true w).2.gl.depthFunc = GL_LESS ∧
      (dl_renderer_enable_depth_test true (dl_renderer_enable_depth_test true w).2).2.gl =
        (dl_renderer_enable_depth_test true w).2.gl) ∧
    (glIsEnabled (dl_renderer_enable_culling true w).2.gl GL_CULL_FACE = true ∧
      (dl_renderer_enable_culling true w).2.gl.cullFaceMode = GL_FRONT ∧
      (dl_renderer_enable_culling true w).2.gl.frontFace = GL_CCW ∧
      (dl_renderer_enable_culling true (dl_renderer_enable_culling true w).2).2.gl =
        (dl_renderer_enable_culling true w).2.gl) ∧
    (glIsEnabled (dl_renderer_enable_antialiasing true w).2.gl GL_LINE_SMOOTH = true ∧
      (dl_renderer_enable_antialiasing true (dl_renderer_enable_antialiasing true w).2).2.gl =
        (dl_renderer_enable_antialiasing true w).2.gl) :=
  ⟨⟨rfl, rfl, rfl, rfl⟩, ⟨rfl, rfl, rfl⟩, ⟨rfl, rfl, rfl, rfl⟩, ⟨rfl, rfl⟩⟩

/-- C7: with `GL_CONTEXT_LOST` queued, a code `glGetError` can hand back and
the `switch` does not name, the one `printf` of the loop is given the
uninitialised pointer `error`: what is printed for that error is undefined,
not a line. -/
theorem C7_unnamed_code_prints_undefined :
    GL_CONTEXT_LOST ≠ GL_NO_ERROR ∧
    GL_CONTEXT_LOST ∉ namedErrorCodes ∧
    errorName GL_CONTEXT_LOST = none ∧
    (dl_renderer_opengl_error "renderer.c" 42 (World.withErrors [GL_CONTEXT_LOST])).2.out
      = [none] := by
  refine ⟨by decide, by decide, by decide, ?_⟩
  have h := opengl_error_loop_unnamed "renderer.c" 42 (World.withErrors [GL_CONTEXT_LOST])
    GL_CONTEXT_LOST [] rfl (by decide) (by decide)
  simp only [dl_renderer_opengl_error, h]
  rfl

/-- C8 (as amended): for every renderer `dl_renderer_delete` issues a delete
for `renderer->vao`, for `renderer->vbo` and for `renderer->shader_program`,
in this order; afterwards `vao` names no vertex array and `vbo` names no
buffer object; `shader_program` names no program object if that program is
not the current program of the context at the time of the call, and if it is
the current program it still names a program object, flagged for deletion. -/
theorem C8_delete_releases_handles (renderer : DL_Renderer) (w : World) :
    (dl_renderer_delete renderer w).world.log =
      w.log ++ [GLCall.deleteVertexArrays 1 renderer.vao, GLCall.deleteBuffers 1 renderer.vbo,
        GLCall.deleteProgram renderer.shader_program] ∧
    (dl_renderer_delete renderer w).renderer = renderer ∧
    renderer.vao ∉ (dl_renderer_delete renderer w).world.gl.vertexArrays ∧
    renderer.vbo ∉ (dl_renderer_delete renderer w).world.gl.bufferNames ∧
    (renderer.shader_program ≠ w.gl.currentProgram →
      renderer.shader_program ∉ (dl_renderer_delete renderer w).world.gl.programNames) ∧
    (renderer.shader_program = w.gl.currentProgram →
      renderer.shader_program ∈ w.gl.programNames →
      renderer.shader_program ∈ (dl_renderer_delete renderer w).world.gl.programNames ∧
      (dl_renderer_delete renderer w).world.gl.programFlagged renderer.shader_program = true) := by
  have hc : (glDeleteBuffers renderer.vbo (glDeleteVertexArrays renderer.vao w)).gl.currentProgram
      = w.gl.currentProgram := by
    rw [glDeleteBuffers_currentProgram, glDeleteVertexArrays_currentProgram]
  have hp : (glDeleteBuffers renderer.vbo (glDeleteVertexArrays renderer.vao w)).gl.programNames
      = w.gl.programNames := by
    simp only [GLState.programNames, glDeleteBuffers_programs, glDeleteVertexArrays_programs]
  refine ⟨?_, rfl, ?_, ?_, ?_, ?_⟩
  · simp [dl_renderer_delete, glDeleteVertexArrays, glDeleteBuffers, glDeleteProgram, World.run]
  · rw [dl_renderer_delete_world, glDeleteProgram_vertexArrays, glDeleteBuffers_vertexArrays]
    exact glDeleteVertexArrays_not_mem _ _
  · rw [dl_renderer_delete_world]
    simp only [GLState.bufferNames, glDeleteProgram_buffers]
    exact glDeleteBuffers_not_mem _ _
  · intro h
    rw [dl_renderer_delete_world]
    apply glDeleteProgram_not_mem
    rw [hc]
    exact h
  · intro h hmem
    rw [dl_renderer_delete_world]
    exact glDeleteProgram_current _ _ (by rw [hc]; exact h) (by rw [hp]; exact hmem)

/-- C8, witness: the renderer of `sessionReady`, whose vertex array 1, buffer
1 and program 3 are objects of the context and whose program is not current.
After `dl_renderer_delete` none of the three names an object. -/
theorem C8_delete_releases_handles_witness :
    (sessionReady.renderer = ⟨3, 1, 1, 15⟩ ∧
      1 ∈ sessionReady.world.gl.vertexArrays ∧
      1 ∈ sessionReady.world.gl.bufferNames ∧
      3 ∈ sessionReady.world.gl.programNames ∧
      sessionReady.world.gl.currentProgram = 0) ∧
    (dl_renderer_delete sessionReady.renderer sessionReady.world).world.log =
      sessionReady.world.log ++
        [GLCall.deleteVertexArrays 1 sessionReady.renderer.vao,
         GLCall.deleteBuffers 1 sessionReady.renderer.vbo,
         GLCall.deleteProgram sessionReady.renderer.shader_program] ∧
    sessionReady.renderer.vao ∉
      (dl_renderer_delete sessionReady.renderer sessionReady.world).world.gl.vertexArrays ∧
    sessionReady.renderer.vbo ∉
      (dl_renderer_delete sessionReady.renderer sessionReady.world).world.gl.bufferNames ∧
    sessionReady.renderer.shader_program ∉
      (dl_renderer_delete sessionReady.renderer sessionReady.world).world.gl.programNames :=
  ⟨by decide,
    (C8_delete_releases_handles sessionReady.renderer sessionReady.world).1,
    (C8_delete_releases_handles sessionReady.renderer sessionReady.world).2.2.1,
    (C8_delete_releases_handles sessionReady.renderer sessionReady.world).2.2.2.1,
    (C8_delete_releases_handles sessionReady.renderer sessionReady.world).2.2.2.2.1
      (by decide)⟩

/-- C8, counterexample: the renderer of `sessionInUse`.  Its two sources are
valid for the driver, its program 3 is linked and was made current by
`dl_renderer_use_program`.  After `dl_renderer_delete` the `shader_program`
handle still names a program object of the context, flagged for deletion. -/
theorem C8_counterexample :
    validSources Driver.sample vertexSource fragmentSource = true ∧
    sessionInUse.renderer.shader_program = 3 ∧
    sessionInUse.world.gl.programLinked 3 = true ∧
    sessionInUse.world.gl.currentProgram = 3 ∧
    sessionInUse.renderer.shader_program ∈
      (dl_renderer_delete sessionInUse.renderer sessionInUse.world).world.gl.programNames ∧
    (dl_renderer_delete sessionInUse.renderer sessionInUse.world).world.gl.programFlagged
      sessionInUse.renderer.shader_program = true := by
  decide

/-- C10: `dl_renderer_gen_vbo` issues, in this order, bind of `renderer->vao`,
creation of a buffer under a new non-zero name `b`, bind of `b` to
`GL_ARRAY_BUFFER`, upload of the given data and byte size with
`GL_STATIC_DRAW`, and bind of vertex array 0; afterwards `renderer->vbo` is
`b`, the vertex-array binding is 0 and `shader_program` and `vao` are as
before. -/
theorem C10_gen_vbo_call_order (renderer : DL_Renderer) (data : List Nat) (size : Nat)
    (w : World) :
    ∃ b : Nat, b ≠ 0 ∧ b ∉ w.gl.bufferNames ∧
      (dl_renderer_gen_vbo renderer data size w).world.log =
        w.log ++ [GLCall.bindVertexArray renderer.vao, GLCall.genBuffers 1 b,
          GLCall.bindBuffer GL_ARRAY_BUFFER b,
          GLCall.bufferData GL_ARRAY_BUFFER size data GL_STATIC_DRAW,
          GLCall.bindVertexArray 0] ∧
      (dl_renderer_gen_vbo renderer data size w).renderer.vbo = b ∧
      b ∈ (dl_renderer_gen_vbo renderer data size w).world.gl.bufferNames ∧
      (dl_renderer_gen_vbo renderer data size w).world.gl.vertexArrayBinding = 0 ∧
      (dl_renderer_gen_vbo renderer data size w).renderer.shader_program
        = renderer.shader_program ∧
      (dl_renderer_gen_vbo renderer data size w).renderer.vao = renderer.vao := by
  refine ⟨(glGenBuffers (glBindVertexArray renderer.vao w)).1, freshName_ne_zero _, ?_,
    ?_, rfl, ?_, ?_, rfl, rfl⟩
  · have h : (glBindVertexArray renderer.vao w).gl.bufferNames = w.gl.bufferNames := by
      simp only [GLState.bufferNames, glBindVertexArray_buffers]
    rw [glGenBuffers_fst, h]
    exact freshName_not_mem _
  · rw [dl_renderer_gen_vbo_world, glBindVertexArray_log, glBufferData_log, glBindBuffer_log,
      glGenBuffers_log, glBindVertexArray_log]
    simp
  · rw [dl_renderer_gen_vbo_world]
    have h1 : ∀ (a : Nat) (w0 : World), (glBindVertexArray a w0).gl.bufferNames
        = w0.gl.bufferNames := by
      intro a w0
      simp only [GLState.bufferNames, glBindVertexArray_buffers]
    have h2 : ∀ (t b : Nat) (w0 : World), (glBindBuffer t b w0).gl.bufferNames
        = w0.gl.bufferNames := by
      intro t b w0
      simp only [GLState.bufferNames, glBindBuffer_buffers]
    rw [h1, glBufferData_bufferNames, h2, glGenBuffers_bufferNames]
    simp
  · rw [dl_renderer_gen_vbo_world]
    exact glBindVertexArray_zero _

end GLRenderer
